import Mathlib

/-!
Shallow embedding of the authentication store (src/store/authStore.ts,
provided as src/unnamed/part_000) and of the team-roster aggregation
(src/components/TeamPage.tsx) of the todolist repository.

The store state is the record `{user, profile, isLoading, error}`; zustand
`set` with a partial object is embedded as a Lean record update.  Every
backend call is modelled by an oracle structure holding the responses the
backend gives during one operation; each operation becomes a pure function
from the oracle and the pre-state to the post-state, paired with the list
of backend events (queries and inserts) it issued, so that claims about
"exactly one insert followed by one re-fetch" are statements about that
trace.  JavaScript truthiness on strings (the `||` operator) is embedded
by `orDefault`, and `String.prototype.includes` by `strContains`.
-/

/-- Session user as used by the store: `id`, `email` (the code asserts
`user.email!` non-null, so it is a plain `String` here) and the optional
`user_metadata?.name`. -/
structure SUser where
  id : String
  email : String
  metaName : Option String
  deriving DecidableEq, Repr

/-- Profile row: `{id, email, name, avatar_url?, created_at}`. -/
structure Profile where
  id : String
  email : String
  name : String
  avatar_url : Option String
  created_at : String
  deriving DecidableEq, Repr

/-- Auth store state: `{user, profile, isLoading, error}`. -/
structure AuthState where
  user : Option SUser
  profile : Option Profile
  isLoading : Bool
  error : Option String
  deriving DecidableEq, Repr

/-- Initial store state: everything null, not loading. -/
def initState : AuthState :=
  { user := none, profile := none, isLoading := false, error := none }

/-- Postgrest-style error carrying a code, as inspected by
the code comparison of error.code with PGRST116 in fetchProfile. -/
structure PgErr where
  code : String
  deriving DecidableEq, Repr

instance {α β : Type} [DecidableEq α] [DecidableEq β] :
    DecidableEq (Except α β) := fun a b =>
  match a, b with
  | .ok x, .ok y => decidable_of_iff (x = y) (by simp)
  | .error x, .error y => decidable_of_iff (x = y) (by simp)
  | .ok _, .error _ => isFalse (by simp)
  | .error _, .ok _ => isFalse (by simp)

/-- Backend events issued by the store operations: auth calls, profile
row selects and profile row inserts (with the exact inserted fields). -/
inductive Ev where
  | signIn (email : String)
  | getUser
  | signUp (email : String)
  | signOut
  | selectProfile (id : String)
  | insertProfile (id : String) (email : String) (name : String)
  deriving DecidableEq, Repr

/-- JavaScript `x || d` for strings: the empty string is falsy. -/
def orDefault (m d : String) : String :=
  if m = "" then d else m

/-- Whether `pat` occurs at the head of `l`. -/
def segAt : List Char → List Char → Bool
  | [], _ => true
  | _ :: _, [] => false
  | p :: ps, c :: cs => p == c && segAt ps cs

/-- Whether `pat` occurs somewhere in the character list. -/
def segIn (pat : List Char) : List Char → Bool
  | [] => pat.isEmpty
  | c :: cs => segAt pat (c :: cs) || segIn pat cs

/-- JavaScript `s.includes(pat)`: substring occurrence, on the character
lists of the strings. -/
def strContains (s pat : String) : Bool :=
  segIn pat.data s.data

/-- JavaScript `s.trim()`: strip leading and trailing whitespace
(character-list implementation). -/
def jsTrim (s : String) : String :=
  String.mk
    (((s.data.dropWhile Char.isWhitespace).reverse.dropWhile
        Char.isWhitespace).reverse)

/-- JavaScript `s.toLowerCase()` (character-list implementation). -/
def jsToLower (s : String) : String :=
  String.mk (s.data.map Char.toLower)

/-- Email normalisation in login and signup: `email.trim().toLowerCase()`. -/
def normEmail (email : String) : String :=
  jsToLower (jsTrim email)

/-- JavaScript `email.split('@')[0]`: the part before the first `@`
(the whole string when there is no `@`). -/
def localPart (email : String) : String :=
  String.mk (email.data.takeWhile (fun c => c != '@'))

/-- Name used for a profile insert in fetchProfile:
`user.user_metadata?.name || user.email!.split('@')[0]` — the metadata
name when present and non-empty, else the local part of the email. -/
def defaultName (u : SUser) : String :=
  match u.metaName with
  | some n => orDefault n (localPart u.email)
  | none => localPart u.email

/-- Oracle for one fetchProfile call: the result of the
single-row select query by id (a row or an error), the error of
the fallback insert, and the row returned by the re-fetch after a
successful insert. -/
structure ProfileB where
  selectR : Except PgErr Profile
  createError : Option String
  refetchR : Option Profile
  deriving DecidableEq, Repr

/-- fetchProfile: no-op without a user; otherwise query the profile row
by id; on the distinguished no-rows code PGRST116 insert the row built
from the user identity and, when the insert reports no error, re-fetch
and store the result; every other query error is caught by the catch-all
and swallowed.  The error field is never written.  Returns the post-state
and the backend events issued. -/
def fetchProfile (b : ProfileB) (s : AuthState) : AuthState × List Ev :=
  match s.user with
  | none => (s, [])
  | some u =>
    match b.selectR with
    | .ok data => ({ s with profile := some data }, [.selectProfile u.id])
    | .error e =>
      if e.code = "PGRST116" then
        match b.createError with
        | some _ =>
          (s, [.selectProfile u.id, .insertProfile u.id u.email (defaultName u)])
        | none =>
          match b.refetchR with
          | some newProfile =>
            ({ s with profile := some newProfile },
             [.selectProfile u.id, .insertProfile u.id u.email (defaultName u),
              .selectProfile u.id])
          | none =>
            (s, [.selectProfile u.id, .insertProfile u.id u.email (defaultName u),
                 .selectProfile u.id])
      else
        -- throw error; caught by the catch-all, logged, no state change
        (s, [.selectProfile u.id])

/-- Oracle for one login call: the `{data.user, error.message}` pair
returned by signInWithPassword, the user resolved by the getUser retry,
and the responses for the nested fetchProfile call. -/
structure LoginB where
  signInUser : Option SUser
  signInErr : Option String
  getUserR : Option SUser
  profileB : ProfileB
  deriving DecidableEq, Repr

/-- Default message of the login catch-all: `error.message || ...`. -/
def loginFailMsg : String := "Login failed. Please check your credentials."

/-- login: set `isLoading=true, error=null`; call signInWithPassword with
the normalised email.  On an error containing "Email not confirmed", try
getUser; with a resolved user, store it, fetchProfile, clear isLoading
and return.  Any other error (or an unresolved getUser) is thrown and the
catch-all stores its message (or the default for an empty one) with
`isLoading=false`.  On success with a user, store it and fetchProfile;
finally clear isLoading. -/
def login (b : LoginB) (email _password : String) (s : AuthState) :
    AuthState × List Ev :=
  let s1 : AuthState := { s with isLoading := true, error := none }
  match b.signInErr with
  | some m =>
    if strContains m "Email not confirmed" then
      match b.getUserR with
      | some u =>
        let r := fetchProfile b.profileB { s1 with user := some u }
        ({ r.1 with isLoading := false },
         [.signIn (normEmail email), .getUser] ++ r.2)
      | none =>
        -- fall through to `throw new Error(error.message)`
        ({ s1 with error := some (orDefault m loginFailMsg), isLoading := false },
         [.signIn (normEmail email), .getUser])
    else
      ({ s1 with error := some (orDefault m loginFailMsg), isLoading := false },
       [.signIn (normEmail email)])
  | none =>
    match b.signInUser with
    | some u =>
      let r := fetchProfile b.profileB { s1 with user := some u }
      ({ r.1 with isLoading := false }, [.signIn (normEmail email)] ++ r.2)
    | none =>
      ({ s1 with isLoading := false }, [.signIn (normEmail email)])

/-- Oracle for one signup call: the `{data.user, error.message}` pair of
signUp and the responses for the nested fetchProfile call.  The manual
fallback insert of signup sits in a `catch` around fetchProfile, and
`fetchProfile` resolves on every path (its whole body is inside its own
catch-all), so that branch is unreachable and needs no oracle fields. -/
structure SignupB where
  signUpUser : Option SUser
  signUpErr : Option String
  profileB : ProfileB
  deriving DecidableEq, Repr

/-- Default message of the signup catch-all. -/
def signupFailMsg : String := "Signup failed. Please try again."

/-- signup: set `isLoading=true, error=null`; validate name, email and
password length, throwing a descriptive error first; call signUp with the
normalised email.  On a backend error, the catch-all stores the message.
On success with a user, store it, wait the fixed delay, and call
fetchProfile inside a try/catch whose catch branch (the manual profile
insert and retry) never runs, because fetchProfile never rejects; finally
clear isLoading. -/
def signup (b : SignupB) (name email password : String) (s : AuthState) :
    AuthState × List Ev :=
  let s1 : AuthState := { s with isLoading := true, error := none }
  if jsTrim name = "" then
    ({ s1 with error := some "Name is required", isLoading := false }, [])
  else if jsTrim email = "" then
    ({ s1 with error := some "Email is required", isLoading := false }, [])
  else if password.length < 6 then
    ({ s1 with error := some "Password must be at least 6 characters", isLoading := false }, [])
  else
    match b.signUpErr with
    | some m =>
      ({ s1 with error := some (orDefault m signupFailMsg), isLoading := false },
       [.signUp (normEmail email)])
    | none =>
      match b.signUpUser with
      | some u =>
        let r := fetchProfile b.profileB { s1 with user := some u }
        ({ r.1 with isLoading := false }, [.signUp (normEmail email)] ++ r.2)
      | none =>
        ({ s1 with isLoading := false }, [.signUp (normEmail email)])

/-- Oracle for one logout call: `threw` is the message of a rejected
sign-out promise (the only way into the catch branch); `resolvedErr` is
the error field of a resolved `{error?}` result, which the code discards
(`await supabase.auth.signOut();` never reads it). -/
structure LogoutB where
  threw : Option String
  resolvedErr : Option String
  deriving DecidableEq, Repr

/-- logout: await sign-out; when the call resolves (its error field,
if any, is ignored) clear user, profile and error; when it rejects, the
catch stores the exception message (or "Logout failed" for an empty one)
and touches nothing else. -/
def logout (b : LogoutB) (s : AuthState) : AuthState :=
  match b.threw with
  | some m => { s with error := some (orDefault m "Logout failed") }
  | none => { s with user := none, profile := none, error := none }

/-- clearError: reset error to null. -/
def clearError (s : AuthState) : AuthState :=
  { s with error := none }

/-- Session payload of an auth-change notification. -/
structure Session where
  user : Option SUser
  deriving DecidableEq, Repr

/-- Auth-change events delivered to the listener. -/
inductive AuthEvent where
  | signedIn
  | signedOut
  | other
  deriving DecidableEq, Repr

/-- Auth-change listener: on SIGNED_IN with a session user, force-set the
user and fetchProfile; on SIGNED_OUT, clear user and profile; anything
else is ignored. -/
def onAuthChange (b : ProfileB) (ev : AuthEvent) (session : Option Session)
    (s : AuthState) : AuthState :=
  match ev with
  | .signedIn =>
    match session with
    | some sess =>
      match sess.user with
      | some u => (fetchProfile b { s with user := some u }).1
      | none => s
    | none => s
  | .signedOut => { s with user := none, profile := none }
  | .other => s

/-- One store operation together with the backend responses it sees. -/
inductive Op where
  | login (b : LoginB) (email password : String)
  | signup (b : SignupB) (name email password : String)
  | logout (b : LogoutB)
  | fetchProfile (b : ProfileB)
  | clearError
  | authChange (b : ProfileB) (ev : AuthEvent) (session : Option Session)
  deriving DecidableEq, Repr

/-- Run one operation to completion on the state. -/
def step (s : AuthState) : Op → AuthState
  | .login b e p => (login b e p s).1
  | .signup b n e p => (signup b n e p s).1
  | .logout b => logout b s
  | .fetchProfile b => (fetchProfile b s).1
  | .clearError => clearError s
  | .authChange b ev sess => onAuthChange b ev sess s

/-- Run a sequence of operations from the initial state. -/
def runOps (ops : List Op) : AuthState :=
  ops.foldl step initState

/-!
Team roster aggregation (fetchTeamMembers in TeamPage.tsx).  The joined
`project_members` rows carry a role, a created_at stamp and an optional
joined profile (`pm.user`); the aggregation builds a `Map` keyed by user
id.  The JavaScript `Map` is embedded as an association list with
insertion-order `set` semantics (overwrite in place, else append).  The
mock `last_active` field is a random placeholder and carries no
information, so it is left out of the model. -/

/-- Joined profile of a membership row (`pm.user`). -/
structure PMUser where
  id : String
  name : String
  email : String
  avatar_url : Option String
  deriving DecidableEq, Repr

/-- One `project_members` row as consumed by the aggregation. -/
structure PMRow where
  role : String
  created_at : String
  user : Option PMUser
  deriving DecidableEq, Repr

/-- Entry of the roster map (TeamMember without the mock last_active). -/
structure TeamMember where
  id : String
  name : String
  email : String
  avatar_url : Option String
  role : String
  joined_at : String
  deriving DecidableEq, Repr

/-- Roster map: association list with JavaScript Map set semantics. -/
abbrev RosterMap : Type := List (String × TeamMember)

/-- Map.get: the entry stored under a key (first matching entry; keys are
unique because entries are only ever added through mapSet). -/
def mapGet : RosterMap → String → Option TeamMember
  | [], _ => none
  | e :: rest, k => if e.1 = k then some e.2 else mapGet rest k

/-- Map.set: overwrite the entry under the key in place, keeping its
position, or append a new entry at the end (JavaScript Map semantics). -/
def mapSet : RosterMap → String → TeamMember → RosterMap
  | [], k, v => [(k, v)]
  | e :: rest, k, v => if e.1 = k then (k, v) :: rest else e :: mapSet rest k v

/-- TeamMember built from a membership row with joined profile `pu`. -/
def rowMember (pm : PMRow) (pu : PMUser) : TeamMember :=
  { id := pu.id, name := pu.name, email := pu.email,
    avatar_url := pu.avatar_url, role := pm.role, joined_at := pm.created_at }

/-- Processing of one membership row: skipped when the joined profile is
missing or is the current user; otherwise inserted unless an entry exists
and the row is neither an owner nor an admin row. -/
def addRow (uid : String) (m : RosterMap) (pm : PMRow) : RosterMap :=
  match pm.user with
  | none => m
  | some pu =>
    if pu.id = uid then m
    else
      match mapGet m pu.id with
      | none => mapSet m pu.id (rowMember pm pu)
      | some _ =>
        if pm.role = "owner" ∨ pm.role = "admin" then
          mapSet m pu.id (rowMember pm pu)
        else m

/-- Roster entry for the current user, forced to role owner. -/
def currentMember (u : SUser) (p : Profile) : TeamMember :=
  { id := u.id, name := p.name, email := p.email, avatar_url := p.avatar_url,
    role := "owner", joined_at := p.created_at }

/-- Seed of the roster map: the current user is added first, and only
when a profile is loaded (`if (profile)` guard). -/
def rosterInit (u : SUser) (profile : Option Profile) : RosterMap :=
  match profile with
  | some p => mapSet [] u.id (currentMember u p)
  | none => []

/-- Roster aggregation: seed the map with the current user (only when a
profile is loaded), then fold the membership rows through addRow. -/
def buildRoster (u : SUser) (profile : Option Profile) (rows : List PMRow) :
    RosterMap :=
  rows.foldl (addRow u.id) (rosterInit u profile)

/-! Helper lemmas about fetchProfile: it only ever writes the profile
field, and it always issues the select query when a user is present. -/

theorem fetchProfile_user_eq (b : ProfileB) (s : AuthState) :
    (fetchProfile b s).1.user = s.user := by
  obtain ⟨su, sp, sl, se⟩ := s
  unfold fetchProfile
  cases su with
  | none => rfl
  | some u =>
    cases b.selectR with
    | ok d => rfl
    | error e =>
      dsimp only
      by_cases hc : e.code = "PGRST116"
      · rw [if_pos hc]
        cases b.createError with
        | some m => rfl
        | none =>
          cases b.refetchR with
          | some np => rfl
          | none => rfl
      · rw [if_neg hc]

theorem fetchProfile_error_eq (b : ProfileB) (s : AuthState) :
    (fetchProfile b s).1.error = s.error := by
  obtain ⟨su, sp, sl, se⟩ := s
  unfold fetchProfile
  cases su with
  | none => rfl
  | some u =>
    cases b.selectR with
    | ok d => rfl
    | error e =>
      dsimp only
      by_cases hc : e.code = "PGRST116"
      · rw [if_pos hc]
        cases b.createError with
        | some m => rfl
        | none =>
          cases b.refetchR with
          | some np => rfl
          | none => rfl
      · rw [if_neg hc]

theorem fetchProfile_isLoading_eq (b : ProfileB) (s : AuthState) :
    (fetchProfile b s).1.isLoading = s.isLoading := by
  obtain ⟨su, sp, sl, se⟩ := s
  unfold fetchProfile
  cases su with
  | none => rfl
  | some u =>
    cases b.selectR with
    | ok d => rfl
    | error e =>
      dsimp only
      by_cases hc : e.code = "PGRST116"
      · rw [if_pos hc]
        cases b.createError with
        | some m => rfl
        | none =>
          cases b.refetchR with
          | some np => rfl
          | none => rfl
      · rw [if_neg hc]

theorem fetchProfile_select_mem (b : ProfileB) (s : AuthState) (u : SUser)
    (h : s.user = some u) :
    Ev.selectProfile u.id ∈ (fetchProfile b s).2 := by
  obtain ⟨su, sp, sl, se⟩ := s
  cases su with
  | none => simp at h
  | some u₀ =>
    obtain rfl : u₀ = u := by simpa using h
    unfold fetchProfile
    cases b.selectR with
    | ok d => simp
    | error e =>
      dsimp only
      by_cases hc : e.code = "PGRST116"
      · rw [if_pos hc]
        cases b.createError with
        | some m => simp
        | none =>
          cases b.refetchR with
          | some np => simp
          | none => simp
      · rw [if_neg hc]
        simp

/-! Concrete sample values used by witnesses and counterexamples. -/

/-- Sample user as returned by the backend for jane. -/
def uJane : SUser :=
  { id := "u1", email := "jane@x.com", metaName := some "Jane" }

/-- Sample profile row for jane. -/
def profJane : Profile :=
  { id := "u1", email := "jane@x.com", name := "Jane", avatar_url := none,
    created_at := "t0" }

/-- Profile backend that finds the row at once. -/
def pbFound : ProfileB :=
  { selectR := .ok profJane, createError := none, refetchR := none }

/-- Profile backend with a no-rows answer, a successful insert and a
re-fetch returning the inserted row. -/
def pbNotFound : ProfileB :=
  { selectR := .error ⟨"PGRST116"⟩, createError := none,
    refetchR := some profJane }

/-- Profile backend failing with an error distinct from the no-rows code. -/
def pbErr500 : ProfileB :=
  { selectR := .error ⟨"500"⟩, createError := none, refetchR := none }

/-- Sample user of a pre-existing session. -/
def uOld : SUser := { id := "u0", email := "old@x.com", metaName := none }

/-- State of an already signed-in session (user cached, no profile). -/
def sLoggedIn : AuthState :=
  { user := some uOld, profile := none, isLoading := false, error := none }

/-- C9: for every execution of fetchProfile, whatever the backend returns
(query error, not-found, creation failure, or success), the error field of
the store is left unchanged — fetchProfile never writes it. -/
theorem c9_fetchProfile_never_writes_error (b : ProfileB) (s : AuthState) :
    (fetchProfile b s).1.error = s.error :=
  fetchProfile_error_eq b s

/-- C4: when a user is present and the profile query answers with the
distinguished no-rows code PGRST116, fetchProfile issues exactly one
insert built from the user id, the user email and the metadata name (or
the local part of the email), followed by exactly one re-fetch, and —
with the backend returning the row just inserted — the stored profile
carries exactly the inserted identity fields. -/
theorem c4_fetchProfile_notfound_insert (b : ProfileB) (s : AuthState)
    (u : SUser) (p : Profile)
    (hu : s.user = some u)
    (hsel : b.selectR = .error ⟨"PGRST116"⟩)
    (hins : b.createError = none)
    (href : b.refetchR = some p)
    (hid : p.id = u.id) (hem : p.email = u.email)
    (hnm : p.name = defaultName u) :
    (fetchProfile b s).2 =
      [Ev.selectProfile u.id,
       Ev.insertProfile u.id u.email (defaultName u),
       Ev.selectProfile u.id] ∧
    (fetchProfile b s).1.profile = some p ∧
    p.id = u.id ∧ p.email = u.email ∧ p.name = defaultName u := by
  obtain ⟨su, sp, sl, se⟩ := s
  obtain rfl : su = some u := hu
  unfold fetchProfile
  rw [hsel]
  dsimp only
  rw [if_pos rfl, hins, href]
  exact ⟨rfl, rfl, hid, hem, hnm⟩

/-- Witness for C4 at a concrete not-found run. -/
theorem c4_fetchProfile_notfound_insert_witness :
    (fetchProfile pbNotFound { initState with user := some uJane }).2 =
      [Ev.selectProfile "u1",
       Ev.insertProfile "u1" "jane@x.com" "Jane",
       Ev.selectProfile "u1"] ∧
    (fetchProfile pbNotFound { initState with user := some uJane }).1.profile
      = some profJane := by
  have h := c4_fetchProfile_notfound_insert pbNotFound
    { initState with user := some uJane } uJane profJane rfl rfl rfl rfl
    (by decide) (by decide) (by decide)
  exact ⟨by rw [h.1]; decide, h.2.1⟩

/-- C2: when the password sign-in reports an error containing "Email not
confirmed" and getUser resolves a current user, login ends in the success
state: that user is stored, fetchProfile was invoked (the profile select
for the user id is in the trace), isLoading is false and error stays
null. -/
theorem c2_login_unconfirmed_success (b : LoginB) (email pw : String)
    (s : AuthState) (u : SUser) (m : String)
    (he : b.signInErr = some m)
    (hc : strContains m "Email not confirmed" = true)
    (hg : b.getUserR = some u) :
    (login b email pw s).1.user = some u ∧
    (login b email pw s).1.isLoading = false ∧
    (login b email pw s).1.error = none ∧
    Ev.selectProfile u.id ∈ (login b email pw s).2 := by
  unfold login
  rw [he]
  dsimp only
  rw [if_pos hc, hg]
  refine ⟨?_, rfl, ?_, ?_⟩
  · rw [fetchProfile_user_eq]
  · rw [fetchProfile_error_eq]
  · have hm := fetchProfile_select_mem b.profileB
      { s with isLoading := true, error := none, user := some u } u rfl
    exact List.mem_append_right _ hm

/-- Witness for C2 at a concrete unconfirmed-email run. -/
theorem c2_login_unconfirmed_success_witness :
    (login { signInUser := none,
             signInErr := some "Email not confirmed",
             getUserR := some uJane, profileB := pbFound }
       "jane@x.com" "pw" initState).1.user = some uJane ∧
    (login { signInUser := none,
             signInErr := some "Email not confirmed",
             getUserR := some uJane, profileB := pbFound }
       "jane@x.com" "pw" initState).1.error = none :=
  have h := c2_login_unconfirmed_success
    { signInUser := none, signInErr := some "Email not confirmed",
      getUserR := some uJane, profileB := pbFound }
    "jane@x.com" "pw" initState uJane "Email not confirmed"
    rfl (by decide) rfl
  ⟨h.1, h.2.2.1⟩

/-- C1 counterexample: from an already signed-in state, a failing login
(backend message "Invalid login credentials") keeps the cached user and
stores the error, so the final state is neither "user set with error
null" nor "user null with error set". -/
theorem c1_counterexample :
    ¬ ((((login
            { signInUser := none,
              signInErr := some "Invalid login credentials",
              getUserR := none, profileB := pbFound }
            "a@b.c" "pw" sLoggedIn).1.user ≠ none ∧
         (login
            { signInUser := none,
              signInErr := some "Invalid login credentials",
              getUserR := none, profileB := pbFound }
            "a@b.c" "pw" sLoggedIn).1.error = none) ∨
        ((login
            { signInUser := none,
              signInErr := some "Invalid login credentials",
              getUserR := none, profileB := pbFound }
            "a@b.c" "pw" sLoggedIn).1.user = none ∧
         (login
            { signInUser := none,
              signInErr := some "Invalid login credentials",
              getUserR := none, profileB := pbFound }
            "a@b.c" "pw" sLoggedIn).1.error ≠ none))) := by
  decide

/-- C1 amended: login never throws (it is a total state transformer) and
always terminates with isLoading false; the final state has either error
null (success), or error set to the failure message while user and
profile are unchanged from the pre-call state (failure). -/
theorem c1_login_amended (b : LoginB) (email pw : String) (s : AuthState) :
    (login b email pw s).1.isLoading = false ∧
    ((login b email pw s).1.error = none ∨
      ((login b email pw s).1.error ≠ none ∧
       (login b email pw s).1.user = s.user ∧
       (login b email pw s).1.profile = s.profile)) := by
  unfold login
  cases b.signInErr with
  | none =>
    dsimp only
    cases b.signInUser with
    | some u => exact ⟨rfl, Or.inl (by rw [fetchProfile_error_eq])⟩
    | none => exact ⟨rfl, Or.inl rfl⟩
  | some m =>
    dsimp only
    by_cases hc : strContains m "Email not confirmed" = true
    · rw [if_pos hc]
      cases b.getUserR with
      | some u => exact ⟨rfl, Or.inl (by rw [fetchProfile_error_eq])⟩
      | none =>
        exact ⟨rfl, Or.inr ⟨by simp, rfl, rfl⟩⟩
    · rw [if_neg hc]
      exact ⟨rfl, Or.inr ⟨by simp, rfl, rfl⟩⟩

/-- Logout oracle of the C5 counterexample: the sign-out call resolves,
and its resolved result carries an error. -/
def lbResolvedErr : LogoutB := { threw := none, resolvedErr := some "signout failed" }

/-- C5 counterexample: the backend sign-out reports a failure in its
resolved result, yet logout still clears user and profile and leaves
error null — the resolved error field is discarded unread, so the claim
that a failing sign-out only sets error and retains the session fields is
false. -/
theorem c5_counterexample :
    lbResolvedErr.resolvedErr = some "signout failed" ∧
    sLoggedIn.user = some uOld ∧
    ¬ ((logout lbResolvedErr sLoggedIn).error = some "signout failed" ∧
       (logout lbResolvedErr sLoggedIn).user = sLoggedIn.user) := by
  decide

/-- C5 amended: logout clears user, profile and error whenever the
sign-out call resolves — any error field of the resolved result is
ignored; only when the call rejects does logout set error to the
exception message (or "Logout failed" for an empty one) and leave user,
profile and isLoading unchanged. -/
theorem c5_logout_amended (b : LogoutB) (s : AuthState) :
    (b.threw = none →
      logout b s = { s with user := none, profile := none, error := none }) ∧
    (∀ m, b.threw = some m →
      (logout b s).error = some (orDefault m "Logout failed") ∧
      (logout b s).user = s.user ∧
      (logout b s).profile = s.profile ∧
      (logout b s).isLoading = s.isLoading) := by
  constructor
  · intro h
    unfold logout
    rw [h]
  · intro m h
    unfold logout
    rw [h]
    exact ⟨rfl, rfl, rfl, rfl⟩

/-- Witness for C5 amended: a resolving sign-out clears the session, and
a rejecting one only stores the message. -/
theorem c5_logout_amended_witness :
    logout { threw := none, resolvedErr := none } sLoggedIn =
      { sLoggedIn with user := none, profile := none, error := none } ∧
    (logout { threw := some "network down", resolvedErr := none } sLoggedIn).error
      = some "network down" ∧
    (logout { threw := some "network down", resolvedErr := none } sLoggedIn).user
      = sLoggedIn.user :=
  have h1 := (c5_logout_amended { threw := none, resolvedErr := none } sLoggedIn).1 rfl
  have h2 := (c5_logout_amended
    { threw := some "network down", resolvedErr := none } sLoggedIn).2
    "network down" rfl
  ⟨h1, by rw [h2.1]; decide, h2.2.1⟩

/-- Signup oracle of the C3 counterexample: the backend returns a user
and the first profile select fails with an error that is not the no-rows
code. -/
def sbJane : SignupB :=
  { signUpUser := some uJane, signUpErr := none, profileB := pbErr500 }

/-- Whether an event is a profile insert. -/
def isInsertEv : Ev → Bool
  | .insertProfile _ _ _ => true
  | _ => false

/-- C3 counterexample: a signup run whose first profile fetch does not
succeed (the select answers with error code 500 and no profile is
stored), yet no fallback insert and no retry happen — the trace carries
no insertProfile event.  fetchProfile resolves on every path, so the
catch branch of signup holding the manual insert is unreachable. -/
theorem c3_counterexample :
    pbErr500.selectR = .error ⟨"500"⟩ ∧
    (signup sbJane "Jane" "jane@x.com" "secret1" initState).1.profile = none ∧
    ((signup sbJane "Jane" "jane@x.com" "secret1" initState).2.filter
        isInsertEv) = [] := by
  decide

/-- C3 amended: after the backend returns a user, signup performs exactly
one fetchProfile call and nothing more: its final state is the
fetchProfile state with isLoading cleared and its trace is the signUp
event followed by the fetchProfile trace.  The manual insert-then-refetch
fallback of signup never runs (fetchProfile never rejects); the not-found
insert and re-fetch happen inside fetchProfile itself. -/
theorem c3_signup_amended (b : SignupB) (name email pw : String)
    (s : AuthState) (u : SUser)
    (hn : ¬ jsTrim name = "") (he : ¬ jsTrim email = "")
    (hp : ¬ pw.length < 6)
    (herr : b.signUpErr = none) (hu : b.signUpUser = some u) :
    signup b name email pw s =
      ({ (fetchProfile b.profileB
            { s with isLoading := true, error := none, user := some u }).1
          with isLoading := false },
       Ev.signUp (normEmail email) ::
         (fetchProfile b.profileB
            { s with isLoading := true, error := none, user := some u }).2) := by
  unfold signup
  rw [if_neg hn, if_neg he, if_neg hp, herr]
  dsimp only
  rw [hu]
  rfl

/-- State after signup stored the jane user, before its profile fetch. -/
def sJaneLoading : AuthState :=
  { initState with isLoading := true, error := none, user := some uJane }

/-- Witness for C3 amended at the concrete jane signup. -/
theorem c3_signup_amended_witness :
    signup sbJane "Jane" "jane@x.com" "secret1" initState =
      ({ (fetchProfile pbErr500 sJaneLoading).1 with isLoading := false },
       Ev.signUp (normEmail "jane@x.com") ::
         (fetchProfile pbErr500 sJaneLoading).2) :=
  c3_signup_amended sbJane "Jane" "jane@x.com" "secret1" initState uJane
    (by decide) (by decide) (by decide) rfl rfl

/-! Invariant machinery for C6: every operation either leaves user and
profile both unchanged, or ends with a user present, or ends with a null
profile; each case preserves "profile non-null implies user non-null". -/

theorem inv_of_cases {s t : AuthState}
    (h : (t.user = s.user ∧ t.profile = s.profile) ∨
      (∃ u, t.user = some u) ∨ t.profile = none)
    (hs : s.profile ≠ none → s.user ≠ none) :
    t.profile ≠ none → t.user ≠ none := by
  intro hp
  rcases h with ⟨hu, hpr⟩ | ⟨u, hu⟩ | hnone
  · rw [hu]
    exact hs (hpr ▸ hp)
  · rw [hu]
    simp
  · exact absurd hnone hp

theorem step_cases (s : AuthState) (op : Op) :
    ((step s op).user = s.user ∧ (step s op).profile = s.profile) ∨
    (∃ u, (step s op).user = some u) ∨ (step s op).profile = none := by
  cases op with
  | login b e p =>
    dsimp [step]
    unfold login
    cases b.signInErr with
    | none =>
      dsimp only
      cases b.signInUser with
      | some u =>
        exact Or.inr (Or.inl ⟨u, by dsimp only; rw [fetchProfile_user_eq]⟩)
      | none => exact Or.inl ⟨rfl, rfl⟩
    | some m =>
      dsimp only
      by_cases hc : strContains m "Email not confirmed" = true
      · rw [if_pos hc]
        cases b.getUserR with
        | some u =>
          exact Or.inr (Or.inl ⟨u, by dsimp only; rw [fetchProfile_user_eq]⟩)
        | none => exact Or.inl ⟨rfl, rfl⟩
      · rw [if_neg hc]
        exact Or.inl ⟨rfl, rfl⟩
  | signup b n e p =>
    dsimp [step]
    unfold signup
    by_cases hn : jsTrim n = ""
    · rw [if_pos hn]
      exact Or.inl ⟨rfl, rfl⟩
    · rw [if_neg hn]
      by_cases he : jsTrim e = ""
      · rw [if_pos he]
        exact Or.inl ⟨rfl, rfl⟩
      · rw [if_neg he]
        by_cases hp : p.length < 6
        · rw [if_pos hp]
          exact Or.inl ⟨rfl, rfl⟩
        · rw [if_neg hp]
          cases b.signUpErr with
          | some m => exact Or.inl ⟨rfl, rfl⟩
          | none =>
            dsimp only
            cases b.signUpUser with
            | some u =>
              exact Or.inr (Or.inl ⟨u, by dsimp only; rw [fetchProfile_user_eq]⟩)
            | none => exact Or.inl ⟨rfl, rfl⟩
  | logout b =>
    dsimp [step]
    unfold logout
    cases b.threw with
    | some m => exact Or.inl ⟨rfl, rfl⟩
    | none => exact Or.inr (Or.inr rfl)
  | fetchProfile b =>
    dsimp [step]
    cases hu : s.user with
    | none =>
      refine Or.inl ⟨by rw [fetchProfile_user_eq]; exact hu, ?_⟩
      obtain ⟨su, sp, sl, se⟩ := s
      obtain rfl : su = none := hu
      rfl
    | some u => exact Or.inr (Or.inl ⟨u, by rw [fetchProfile_user_eq, hu]⟩)
  | clearError => exact Or.inl ⟨rfl, rfl⟩
  | authChange b ev sess =>
    dsimp [step]
    unfold onAuthChange
    cases ev with
    | signedIn =>
      cases sess with
      | none => exact Or.inl ⟨rfl, rfl⟩
      | some session =>
        dsimp only
        cases session.user with
        | none => exact Or.inl ⟨rfl, rfl⟩
        | some u => exact Or.inr (Or.inl ⟨u, by rw [fetchProfile_user_eq]⟩)
    | signedOut => exact Or.inr (Or.inr rfl)
    | other => exact Or.inl ⟨rfl, rfl⟩

theorem step_preserves_inv (s : AuthState) (op : Op)
    (h : s.profile ≠ none → s.user ≠ none) :
    (step s op).profile ≠ none → (step s op).user ≠ none :=
  inv_of_cases (step_cases s op) h

theorem foldl_inv (ops : List Op) : ∀ s : AuthState,
    (s.profile ≠ none → s.user ≠ none) →
    ((ops.foldl step s).profile ≠ none → (ops.foldl step s).user ≠ none) := by
  induction ops with
  | nil => intro s h; exact h
  | cons op rest ih => intro s h; exact ih (step s op) (step_preserves_inv s op h)

/-- C6: in every state reachable from the initial state through any
sequence of login, signup, logout, fetchProfile, clearError and
auth-change listener events, the profile is non-null only if the user is
non-null. -/
theorem c6_profile_only_with_user (ops : List Op)
    (h : (runOps ops).profile ≠ none) : (runOps ops).user ≠ none :=
  foldl_inv ops initState (fun hp => absurd rfl hp) h

/-- Operation sequence of the C6 witness: a listener sign-in that loads
the jane profile. -/
def opsC6 : List Op :=
  [Op.authChange pbFound AuthEvent.signedIn (some ⟨some uJane⟩)]

/-- Witness for C6: a reachable state with a profile also has a user. -/
theorem c6_profile_only_with_user_witness :
    (runOps opsC6).profile ≠ none ∧ (runOps opsC6).user ≠ none :=
  ⟨by decide, c6_profile_only_with_user opsC6 (by decide)⟩

/-! Roster map lemmas. -/

theorem mapGet_mapSet_self (m : RosterMap) (k : String) (v : TeamMember) :
    mapGet (mapSet m k v) k = some v := by
  induction m with
  | nil => simp [mapSet, mapGet]
  | cons e rest ih =>
    by_cases h : e.1 = k
    · simp [mapSet, mapGet, h]
    · simp [mapSet, mapGet, h, ih]

theorem mapGet_mapSet_ne (m : RosterMap) (k k₂ : String) (v : TeamMember)
    (h : ¬ k = k₂) : mapGet (mapSet m k v) k₂ = mapGet m k₂ := by
  induction m with
  | nil => simp [mapSet, mapGet, h]
  | cons e rest ih =>
    by_cases he : e.1 = k
    · simp [mapSet, mapGet, he, h]
    · simp [mapSet, mapGet, he, ih]

theorem mapGet_addRow_uid (uid : String) (m : RosterMap) (pm : PMRow) :
    mapGet (addRow uid m pm) uid = mapGet m uid := by
  unfold addRow
  cases pm.user with
  | none => rfl
  | some pu =>
    dsimp only
    by_cases h : pu.id = uid
    · rw [if_pos h]
    · rw [if_neg h]
      cases mapGet m pu.id with
      | none => exact mapGet_mapSet_ne m pu.id uid _ h
      | some v =>
        dsimp only
        by_cases hp : pm.role = "owner" ∨ pm.role = "admin"
        · rw [if_pos hp]
          exact mapGet_mapSet_ne m pu.id uid _ h
        · rw [if_neg hp]

theorem foldl_addRow_get_uid (uid : String) (rows : List PMRow) :
    ∀ m : RosterMap, mapGet (rows.foldl (addRow uid) m) uid = mapGet m uid := by
  induction rows with
  | nil => intro m; rfl
  | cons pm rest ih =>
    intro m
    rw [List.foldl_cons, ih, mapGet_addRow_uid]

/-- C10: when the profile of the store is null while the roster is built,
the output holds no entry for the current user id at all: the seed entry
is guarded by the profile and every row with the current user id is
skipped. -/
theorem c10_null_profile_absent_user (u : SUser) (rows : List PMRow) :
    mapGet (buildRoster u none rows) u.id = none := by
  unfold buildRoster
  rw [foldl_addRow_get_uid]
  rfl

/-- Last role among a role list that is owner or admin, if any. -/
def lastPriv : List String → Option String
  | [] => none
  | r :: rest =>
    match lastPriv rest with
    | some x => some x
    | none => if r = "owner" ∨ r = "admin" then some r else none

/-- Role finally stored for one other user across the membership
rows: with no existing entry any row is inserted, and afterwards only
owner and admin rows overwrite — so the last owner-or-admin role wins
when one exists, else the stored role stays that of the starting entry,
or of the first row when the map held nothing. -/
theorem foldl_addRow_role (uid : String) (pu : PMUser) (hne : ¬ pu.id = uid)
    (rows : List PMRow) :
    ∀ m : RosterMap, (∀ pm ∈ rows, pm.user = some pu) →
      Option.map TeamMember.role (mapGet (rows.foldl (addRow uid) m) pu.id) =
        (match lastPriv (rows.map PMRow.role) with
         | some r => some r
         | none =>
           match Option.map TeamMember.role (mapGet m pu.id) with
           | some c => some c
           | none => (rows.map PMRow.role).head?) := by
  induction rows with
  | nil =>
    intro m _
    rw [List.foldl_nil]
    cases h : Option.map TeamMember.role (mapGet m pu.id) <;> rfl
  | cons pm rest ih =>
    intro m hall
    have hpm : pm.user = some pu := hall pm (List.mem_cons_self pm rest)
    have hrest : ∀ q ∈ rest, q.user = some pu :=
      fun q hq => hall q (List.mem_cons_of_mem pm hq)
    rw [List.foldl_cons, ih (addRow uid m pm) hrest, List.map_cons]
    cases hL : lastPriv (rest.map PMRow.role) with
    | some x => simp [lastPriv, hL]
    | none =>
      unfold addRow
      rw [hpm]
      dsimp only
      rw [if_neg hne]
      cases hm : mapGet m pu.id with
      | none =>
        dsimp only
        rw [mapGet_mapSet_self]
        by_cases hp : pm.role = "owner" ∨ pm.role = "admin"
        · simp [lastPriv, hL, hp, rowMember]
        · simp [lastPriv, hL, hp, rowMember, hm]
      | some v =>
        dsimp only
        by_cases hp : pm.role = "owner" ∨ pm.role = "admin"
        · rw [if_pos hp, mapGet_mapSet_self]
          simp [lastPriv, hL, hp, rowMember]
        · rw [if_neg hp]
          simp [lastPriv, hL, hp, hm]

/-- C7 amended: for the membership rows of one other user, a row is
inserted when the map holds no entry for the id or when the role of the row is
owner or admin — an owner or admin row overwrites ANY existing entry,
including an earlier owner or admin one, while non-privileged duplicates
are skipped.  Hence the final role for that id is the role of the LAST
owner-or-admin row when one exists, and the role of the first row
otherwise. -/
theorem c7_roster_precedence_amended (u : SUser) (profile : Option Profile)
    (pu : PMUser) (rows : List PMRow)
    (hne : ¬ pu.id = u.id)
    (hall : ∀ pm ∈ rows, pm.user = some pu) :
    Option.map TeamMember.role (mapGet (buildRoster u profile rows) pu.id) =
      (match lastPriv (rows.map PMRow.role) with
       | some r => some r
       | none => (rows.map PMRow.role).head?) := by
  unfold buildRoster
  rw [foldl_addRow_role u.id pu hne rows (rosterInit u profile) hall]
  have h0 : mapGet (rosterInit u profile) pu.id = none := by
    cases profile with
    | none => rfl
    | some p =>
      unfold rosterInit
      dsimp only
      exact mapGet_mapSet_ne [] u.id pu.id _ (fun h => hne h.symm)
  rw [h0]
  cases lastPriv (rows.map PMRow.role) <;> rfl

/-- Membership-row profile of another user, bob. -/
def puBob : PMUser :=
  { id := "2", name := "Bob", email := "bob@x.com", avatar_url := none }

/-- An owner membership row for bob. -/
def rowOwnerBob : PMRow :=
  { role := "owner", created_at := "t1", user := some puBob }

/-- An admin membership row for bob. -/
def rowAdminBob : PMRow :=
  { role := "admin", created_at := "t2", user := some puBob }

/-- A plain member membership row for bob. -/
def rowMemberBob : PMRow :=
  { role := "member", created_at := "t3", user := some puBob }

/-- C7 counterexample: an owner row for id 2 followed by an admin row for
the same id ends with role admin — the later admin row overwrites the
earlier owner entry, so the first owner-or-admin row does not win. -/
theorem c7_counterexample :
    Option.map TeamMember.role
        (mapGet (buildRoster uJane none [rowOwnerBob, rowAdminBob]) "2")
      = some "admin" ∧
    ¬ (Option.map TeamMember.role
        (mapGet (buildRoster uJane none [rowOwnerBob, rowAdminBob]) "2")
      = some "owner") := by
  decide

/-- Witness for C7 amended: member, admin, owner rows for bob end with
the last privileged role, owner. -/
theorem c7_roster_precedence_amended_witness :
    Option.map TeamMember.role
        (mapGet (buildRoster uJane none [rowMemberBob, rowAdminBob, rowOwnerBob])
          "2")
      = some "owner" := by
  have h := c7_roster_precedence_amended uJane none puBob
    [rowMemberBob, rowAdminBob, rowOwnerBob] (by decide) (by decide)
  exact h.trans (by decide)

/-- C8 amended: whenever a profile is loaded (profile non-null), the
current user is present in the roster with role owner, and this entry
wins over every membership row with the same id: rows carrying the
current user id are skipped unconditionally, so the seeded owner entry is
the final entry for that id whatever the input rows are. -/
theorem c8_current_user_owner_amended (u : SUser) (profile : Option Profile)
    (p : Profile) (rows : List PMRow) (hp : profile = some p) :
    mapGet (buildRoster u profile rows) u.id = some (currentMember u p) ∧
    (currentMember u p).role = "owner" := by
  subst hp
  constructor
  · unfold buildRoster
    rw [foldl_addRow_get_uid]
    exact mapGet_mapSet_self [] u.id (currentMember u p)
  · rfl

/-- Current user of the C8 scenario, with id 1. -/
def uMe : SUser := { id := "1", email := "me@x.com", metaName := none }

/-- Loaded profile of the current user of the C8 scenario. -/
def profMe : Profile :=
  { id := "1", email := "me@x.com", name := "Me", avatar_url := none,
    created_at := "t0" }

/-- Membership-row profile carrying the current user id 1. -/
def puMe : PMUser :=
  { id := "1", name := "Me", email := "me@x.com", avatar_url := none }

/-- Membership rows of the C8 scenario: a member row and an admin row,
both with the current user id 1. -/
def rowsMe : List PMRow :=
  [{ role := "member", created_at := "t1", user := some puMe },
   { role := "admin", created_at := "t2", user := some puMe }]

/-- Witness for C8 amended at the spec scenario: rows member and admin
for id 1 plus current user id 1 with a loaded profile end with the entry
for id 1 at role owner. -/
theorem c8_current_user_owner_amended_witness :
    mapGet (buildRoster uMe (some profMe) rowsMe) "1"
      = some (currentMember uMe profMe) ∧
    (currentMember uMe profMe).role = "owner" :=
  c8_current_user_owner_amended uMe (some profMe) profMe rowsMe rfl

/-- C8 counterexample: with a null profile the same scenario produces an
empty roster — the current user is not present at all, let alone with
role owner, so the unconditional "always present" reading fails. -/
theorem c8_counterexample :
    buildRoster uMe none rowsMe = [] ∧
    mapGet (buildRoster uMe none rowsMe) "1" = none := by
  decide
